import Mathlib

/-!
Verification development for the rez build/release orchestrator
(`src/rez/build_process_.py`).  The Python module is shallowly embedded:
its exception hierarchy becomes an inductive type, methods of
`BuildProcessHelper` become functions over an explicit `Helper`
(the relevant `self` fields) and an `Env` (the external collaborators:
filesystem, VCS adapter, released-package listing), and side effects that
matter to the claims (file writes, hook invocations, skip headers,
warnings) are returned as explicit traces.  Python's `sorted(..., key=...,
reverse=True)` (a stable comparison sort) is embedded as
`List.insertionSort` on the descending version order.
-/

namespace RezBuild

/-- Resolution outcomes of the external resolver (`ResolverStatus` enum);
only `solved` lets `create_build_context` return normally. -/
inductive ResolverStatus where
  | solved
  | failed
  | aborted
  | pending
  deriving DecidableEq, Repr

/-- A resolved context (`ResolvedContext`): the request it was built from and
the resolution status.  The environment handle itself is opaque to the
orchestrator and is not modelled. -/
structure ResolvedCtx where
  status : ResolverStatus
  request : List String
  deriving DecidableEq, Repr

/-- The exception classes of `rez.exceptions` that `build_process_.py`
raises or catches, plus `nameError` for Python's `UnboundLocalError` /
`NameError` (not a `RezError`) and `otherError` for any non-rez exception.
All rez exception classes derive from `RezError`. -/
inductive Exc where
  | rezError (msg : String)
  | releaseError (msg : String)
  | releaseVCSError (msg : String)
  | releaseHookCancellingError (msg : String)
  | buildError (msg : String)
  | buildProcessError (msg : String)
  | buildContextResolveError (ctx : ResolvedCtx)
  | nameError (var : String)
  | otherError (msg : String)
  deriving DecidableEq, Repr

/-- Python `repr` of a simple string: the text between single quotes. -/
def pyRepr (s : String) : String := "\'" ++ s ++ "\'"

/-- Python `str(e)` for each modelled exception. -/
def excStr : Exc → String
  | .rezError m => m
  | .releaseError m => m
  | .releaseVCSError m => m
  | .releaseHookCancellingError m => m
  | .buildError m => m
  | .buildProcessError m => m
  | .buildContextResolveError _ => "The build context failed to resolve"
  | .nameError v => "local variable " ++ pyRepr v ++ " referenced before assignment"
  | .otherError m => m

/-- Python `e.__class__.__name__`. -/
def excClassName : Exc → String
  | .rezError _ => "RezError"
  | .releaseError _ => "ReleaseError"
  | .releaseVCSError _ => "ReleaseVCSError"
  | .releaseHookCancellingError _ => "ReleaseHookCancellingError"
  | .buildError _ => "BuildError"
  | .buildProcessError _ => "BuildProcessError"
  | .buildContextResolveError _ => "BuildContextResolveError"
  | .nameError _ => "UnboundLocalError"
  | .otherError _ => "Exception"

/-- Whether the exception is an instance of `RezError` (every rez exception
class is; `UnboundLocalError` and foreign exceptions are not). -/
def isRezError : Exc → Bool
  | .nameError _ => false
  | .otherError _ => false
  | _ => true

/-- Whether the exception is an instance of `ReleaseVCSError`. -/
def isReleaseVCSError : Exc → Bool
  | .releaseVCSError _ => true
  | _ => false

/-- Whether the exception is an instance of `ReleaseHookCancellingError`. -/
def isCancelling : Exc → Bool
  | .releaseHookCancellingError _ => true
  | _ => false

/-- The `repo_operation` context manager: `exc_type` is `ReleaseVCSError`
when `skip_errors` is set and `None` otherwise (in Python 2 an
`except None` clause matches no exception, so the error propagates).
The result pairs the body's value (`none` when the scope was skipped)
with the warning printed for a skipped error, if any. -/
def repo_operation {α : Type} (skip_errors : Bool) (body : Except Exc α) :
    Except Exc (Option α × Option String) :=
  match body with
  | .ok a => .ok (some a, none)
  | .error e =>
    if skip_errors && isReleaseVCSError e then
      .ok (none, some ("THE FOLLOWING ERROR WAS SKIPPED:\n" ++ excStr e))
    else
      .error e

instance exceptDecEq {ε α : Type} [DecidableEq ε] [DecidableEq α] :
    DecidableEq (Except ε α) := fun x y =>
  match x, y with
  | .ok a, .ok b =>
    if h : a = b then .isTrue (by rw [h])
    else .isFalse (fun hc => h (Except.ok.inj hc))
  | .error a, .error b =>
    if h : a = b then .isTrue (by rw [h])
    else .isFalse (fun hc => h (Except.error.inj hc))
  | .ok _, .error _ => .isFalse (fun hc => Except.noConfusion hc)
  | .error _, .ok _ => .isFalse (fun hc => Except.noConfusion hc)

/-- A loaded release hook, specialised to one life-cycle event: its `name()`
and the outcome of invoking the callback the event maps to. -/
structure Hook where
  name : String
  call : Except Exc Unit
  deriving DecidableEq, Repr

/-- A life-cycle event (`ReleaseHookEvent`): its human label and noun. -/
structure HookEvent where
  label : String
  noun : String
  deriving DecidableEq, Repr

/-- The body of `run_hooks`: hooks run in load order; `e_bound` models the
Python local `e`, which at entry is unbound (`none`) and whose only binding
site (the cancelling clause) raises immediately.  The non-cancelling
`except RezError` clause formats its debug message from `e`, so with `e`
unbound that clause raises `UnboundLocalError` instead of logging.  The
first component is the trace of hooks whose callback was invoked. -/
def run_hooks_go (ev : HookEvent) (e_bound : Option Exc) :
    List Hook → List String × Except Exc Unit
  | [] => ([], .ok ())
  | hook :: rest =>
    match hook.call with
    | .ok _ =>
      let r := run_hooks_go ev e_bound rest
      (hook.name :: r.1, r.2)
    | .error err =>
      if isCancelling err then
        ([hook.name], .error (.releaseError
          (ev.noun ++ " cancelled by " ++ ev.label ++ " hook \'" ++ hook.name
            ++ "\': " ++ excClassName err ++ ":\n" ++ excStr err)))
      else if isRezError err then
        match e_bound with
        | some e =>
          let _dbg := "Error in " ++ ev.label ++ " hook \'" ++ hook.name
            ++ "\': " ++ excClassName e ++ ":\n" ++ excStr e
          let r := run_hooks_go ev e_bound rest
          (hook.name :: r.1, r.2)
        | none => ([hook.name], .error (.nameError "e"))
      else
        ([hook.name], .error err)

/-- An already-released package with the current package's name, as loaded
by `iter_packages` from the release path. -/
structure RelPackage where
  version : Nat
  uuid : String
  uri : String
  revision : String
  deriving DecidableEq, Repr

/-- The descending version order used by
`sorted(it, key=lambda x: x.version, reverse=True)`. -/
def versionGe (a b : RelPackage) : Prop := b.version ≤ a.version

instance versionGe.decRel : DecidableRel versionGe :=
  fun a b => Nat.decLe b.version a.version

instance versionGe.isTotal : IsTotal RelPackage versionGe :=
  ⟨fun a b => Nat.le_total b.version a.version⟩

instance versionGe.isTrans : IsTrans RelPackage versionGe :=
  ⟨fun _ _ _ hab hbc => Nat.le_trans hbc hab⟩

/-- `sorted(it, key=lambda x: x.version, reverse=True)`: a stable sort on
the descending version order. -/
def sortByVersionDesc (l : List RelPackage) : List RelPackage :=
  List.insertionSort versionGe l

/-- The VCS adapter contract consumed by the orchestrator. -/
structure VCS where
  vcs_name : String
  validate_repostate : Except Exc Unit
  tag_exists : String → Except Exc Bool
  create_release_tag : String → Option String → Except Exc Unit
  get_current_revision : Except Exc String
  get_changelog : Option String → Except Exc (List Char)

/-- The fields of `BuildProcessHelper` the claims depend on.  `format_result`
is the outcome of `self.package.format(release_settings.tag_name)` (external
template formatting); `hooks` are the loaded release hooks specialised to
the event being run. -/
structure Helper where
  skip_errors : Bool
  ensure_latest : Bool
  ignore_existing_tag : Bool
  package_name : String
  package_version : Nat
  package_uuid : String
  format_result : Except Exc String
  hooks : List Hook

/-- The external world `pre_release` and friends read: configured release
path and its existence, the `plugins.release_vcs.check_tag` setting, the
bound VCS adapter, and the released packages `iter_packages` yields. -/
structure Env where
  release_packages_path : String
  release_path_exists : Bool
  check_tag : Bool
  vcs : VCS
  released : List RelPackage

/-- `run_hooks(hook_event, **kwargs)`: the local `e` is unbound at entry. -/
def run_hooks (h : Helper) (ev : HookEvent) : List String × Except Exc Unit :=
  run_hooks_go ev none h.hooks

/-- `get_current_tag_name`: any formatting failure becomes a hard
`ReleaseError`; an empty formatted name falls back to "unversioned". -/
def get_current_tag_name (format_result : Except Exc String) : Except Exc String :=
  match format_result with
  | .error e => .error (.releaseError ("Error formatting release tag name: " ++ excStr e))
  | .ok tag_name => .ok (if tag_name = "" then "unversioned" else tag_name)

/-- The part of `pre_release` before the released-package listing: release
path existence, `validate_repostate()` under `repo_operation`, and the
existing-tag check (`tag_exists` defaults to `False` when its scope is
skipped). -/
def pre_checks (h : Helper) (env : Env) : Except Exc Unit :=
  if env.release_path_exists = false then
    .error (.releaseError
      ("Release path does not exist: " ++ pyRepr env.release_packages_path))
  else
    match repo_operation h.skip_errors env.vcs.validate_repostate with
    | .error e => .error e
    | .ok _ =>
      if env.check_tag && !h.ignore_existing_tag then
        match get_current_tag_name h.format_result with
        | .error e => .error e
        | .ok tag_name =>
          match repo_operation h.skip_errors (env.vcs.tag_exists tag_name) with
          | .error e => .error e
          | .ok r =>
            if r.1.getD false = true then
              .error (.releaseError
                ("Cannot release - the current package version \'"
                  ++ toString h.package_version
                  ++ "\' is already tagged in the repository. Use "
                  ++ "--ignore-existing-tag to force the release"))
            else .ok ()
      else .ok ()

/-- The UUID guard of `pre_release` over the sorted released list: if the
current package declares a UUID and there are released packages, the most
recent one's UUID (when declared) must match. -/
def uuid_check (uuid : String) (packages : List RelPackage) : Except Exc Unit :=
  match packages with
  | [] => .ok ()
  | latest :: _ =>
    if uuid ≠ "" ∧ latest.uuid ≠ "" ∧ latest.uuid ≠ uuid then
      .error (.releaseError
        "Cannot release - the packages are not the same (UUID mismatch)")
    else .ok ()

/-- The `ensure_latest` loop of `pre_release`: `for package in packages: if
package.version > self.package.version: raise ... else: break` — only the
head of the descending-sorted list is ever examined. -/
def ensure_latest_check (current_version : Nat) :
    List RelPackage → Except Exc Unit
  | [] => .ok ()
  | p :: _ =>
    if current_version < p.version then
      .error (.releaseError
        ("Cannot release - a newer package version already exists ("
          ++ p.uri ++ ")"))
    else .ok ()

/-- `pre_release`: the pre-flight guards in source order — path, repository
state, tag collision, then over the descending-sorted released list the
UUID guard and (when `ensure_latest`) the newer-version guard. -/
def pre_release (h : Helper) (env : Env) : Except Exc Unit :=
  match pre_checks h env with
  | .error e => .error e
  | .ok _ =>
    match uuid_check h.package_uuid (sortByVersionDesc env.released) with
    | .error e => .error e
    | .ok _ =>
      if h.ensure_latest then
        ensure_latest_check h.package_version (sortByVersionDesc env.released)
      else .ok ()

/-- `post_release`: tag the repository, the tag creation wrapped in
`repo_operation`. -/
def post_release (h : Helper) (env : Env) (release_message : Option String) :
    Except Exc Unit :=
  match get_current_tag_name h.format_result with
  | .error e => .error e
  | .ok tag_name =>
    match repo_operation h.skip_errors
        (env.vcs.create_release_tag tag_name release_message) with
    | .error e => .error e
    | .ok _ => .ok ()

/-- The scan inside `get_previous_release`: first package of the
descending-sorted list whose version is strictly below the current one. -/
def previous_release_scan (current_version : Nat) :
    List RelPackage → Option RelPackage
  | [] => none
  | p :: rest =>
    if p.version < current_version then some p
    else previous_release_scan current_version rest

/-- `get_previous_release`. -/
def get_previous_release (h : Helper) (env : Env) : Option RelPackage :=
  previous_release_scan h.package_version (sortByVersionDesc env.released)

/-- The ellipsis marker `"..."` appended by the changelog truncation. -/
def ellipsis : List Char := ['.', '.', '.']

/-- The dict `get_release_data` returns.  Changelog text is modelled as a
character list (Python slices and measures it by characters). -/
structure ReleaseData where
  vcs : String
  revision : Option String
  changelog : Option (List Char)
  previous_version : Option Nat
  previous_revision : Option String
  deriving DecidableEq, Repr

/-- `get_release_data`: previous version/revision from
`get_previous_release`, current revision and changelog through
`repo_operation` (left `None` when a scope is skipped), and the changelog
truncated to `maxlen` characters plus `"..."` only when it is longer than
`maxlen + 3` (`config.max_package_changelog_chars`; `0` models a falsy
setting that disables truncation). -/
def get_release_data (h : Helper) (env : Env) (maxlen : Nat) :
    Except Exc ReleaseData :=
  let previous_package := get_previous_release h env
  let previous_version := previous_package.map (fun p => p.version)
  let previous_revision := previous_package.map (fun p => p.revision)
  match repo_operation h.skip_errors env.vcs.get_current_revision with
  | .error e => .error e
  | .ok r1 =>
    let revision : Option String := r1.1
    match repo_operation h.skip_errors (env.vcs.get_changelog previous_revision) with
    | .error e => .error e
    | .ok r2 =>
      let changelog : Option (List Char) := r2.1
      let changelog :=
        match changelog with
        | some cl =>
          if maxlen ≠ 0 ∧ cl ≠ [] ∧ maxlen + 3 < cl.length then
            some (cl.take maxlen ++ ellipsis)
          else some cl
        | none => none
      .ok ⟨env.vcs.vcs_name, revision, changelog, previous_version, previous_revision⟩

/-- `_n_of_m(variant)`: the "k/n" progress label. -/
def n_of_m (num_variants index : Nat) : String :=
  toString (index + 1) ++ "/" ++ toString (max num_variants 1)

/-- The `invalid_variants` of `visit_variants`:
`set(variants) - set(range(num_variants))`, rendered sorted ascending. -/
def invalid_variants_of (num_variants : Nat) (variants : List Nat) : List Nat :=
  List.insertionSort (fun a b => a ≤ b)
    ((variants.filter (fun x => decide (x ∉ List.range num_variants))).dedup)

/-- The iteration of `visit_variants` over the package's variant indices:
returns the trace of indices passed to `func`, the skip headers printed,
the visited count and the collected results, in declaration order. -/
def visit_loop {α : Type} (num_variants : Nat) (func : Nat → α)
    (variants : List Nat) : List Nat → List Nat × List String × Nat × List α
  | [] => ([], [], 0, [])
  | i :: rest =>
    if variants ≠ [] ∧ i ∉ variants then
      let r := visit_loop num_variants func variants rest
      (r.1, ("Skipping " ++ n_of_m num_variants i ++ "...") :: r.2.1, r.2.2)
    else
      let r := visit_loop num_variants func variants rest
      (i :: r.1, r.2.1, r.2.2.1 + 1, func i :: r.2.2.2)

/-- `visit_variants(func, variants)`: a non-empty filter containing an index
the package does not have fails with `BuildError` before any iteration;
otherwise the variants are walked in declaration order, filtered ones
skipped with a progress header.  The first component is the trace of
variant indices `func` was invoked on. -/
def visit_variants {α : Type} (num_variants : Nat) (func : Nat → α)
    (variants : List Nat) :
    List Nat × List String × Except Exc (Nat × List α) :=
  if variants ≠ [] ∧ invalid_variants_of num_variants variants ≠ [] then
    ([], [], .error (.buildError
      ("The package does not contain the variants: "
        ++ String.intercalate ", "
          ((invalid_variants_of num_variants variants).map toString))))
  else
    let r := visit_loop num_variants func variants (List.range num_variants)
    (r.1, r.2.1, .ok (r.2.2.1, r.2.2.2))

/-- Python's substring test `a in b` on strings. -/
def py_str_in (a b : String) : Bool :=
  (List.range (b.toList.length + 1)).any
    (fun i => decide (((b.toList.drop i).take a.toList.length) = a.toList))

/-- The factory `create_build_process`: `process_types` is computed from the
plugin manager but the guard then tests `process_type not in process_type`
— membership of the string in itself — exactly as the source does, and
the class lookup proceeds. -/
def create_build_process {α : Type} (get_plugin_class : String → α)
    (process_types : List String) (process_type : String) : Except Exc α :=
  if py_str_in process_type process_type = false then
    .error (.buildProcessError ("Unknown build process: " ++ pyRepr process_type))
  else .ok (get_plugin_class process_type)

/-- One buildable variant: its index and requirement projections. -/
structure Variant where
  index : Nat
  var_requires : List String
  build_requires : List String
  private_build_requires : List String
  deriving DecidableEq, Repr

/-- Modelled from the spec: `variant.get_requires(build_requires=True,
private_build_requires=True)` lives in `packages_.py` (not under `src/`);
per the spec it builds the request from the variant's normal, build-time
and private build-time requirements. -/
def variant_get_requires (v : Variant) : List String :=
  v.var_requires ++ v.build_requires ++ v.private_build_requires

/-- The `BuildType` enum: which package search path resolution uses. -/
inductive BuildType where
  | local
  | central
  deriving DecidableEq, Repr

/-- The search-path choice in `create_build_context`: `packages_path` for a
local build, `nonlocal_packages_path` otherwise. -/
def chosen_packages_path (build_type : BuildType)
    (packages_path nonlocal_packages_path : List String) : List String :=
  match build_type with
  | .local => packages_path
  | .central => nonlocal_packages_path

/-- `create_build_context`: resolve the variant's request against the chosen
search path, save the context to `<build_path>/build.rxt` before the status
is inspected (the first component is the trace of file writes), and raise
`BuildContextResolveError` carrying the context when it is not solved. -/
def create_build_context (resolve : List String → List String → ResolvedCtx)
    (packages_path nonlocal_packages_path : List String) (variant : Variant)
    (build_type : BuildType) (build_path : String) :
    List String × Except Exc (ResolvedCtx × String) :=
  let request := variant_get_requires variant
  let paths := chosen_packages_path build_type packages_path nonlocal_packages_path
  let context := resolve request paths
  let rxt_filepath := build_path ++ "/build.rxt"
  let writes := [rxt_filepath]
  if context.status ≠ ResolverStatus.solved then
    (writes, .error (.buildContextResolveError context))
  else
    (writes, .ok (context, rxt_filepath))

/-- The helper with `ensure_latest` replaced, all other fields kept: used to
state that the newer-version guard is the only part of `pre_release` that
reads `ensure_latest`. -/
def with_ensure_latest (h : Helper) (b : Bool) : Helper :=
  { h with ensure_latest := b }

/-- The environment with the VCS adapter's `validate_repostate` replaced by
a success: used to state that a skipped VCS error lets execution continue
exactly as if the call had succeeded. -/
def with_validate_ok (env : Env) : Env :=
  { env with vcs := { env.vcs with validate_repostate := .ok () } }

/-- A VCS adapter whose calls all succeed (no tag present). -/
def vcs_plain : VCS :=
  ⟨"git", .ok (), fun _ => .ok false, fun _ _ => .ok (), .ok "rev2", fun _ => .ok []⟩

/-- Fixture for C1: one hook whose callback raises a non-cancelling
`RezError`. -/
def c1_helper : Helper :=
  ⟨false, true, false, "foo", 15, "", .ok "tagname",
    [⟨"myhook", .error (.rezError "hook failed")⟩]⟩

/-- Fixture for C1: the pre-release life-cycle event. -/
def c1_event : HookEvent := ⟨"pre-release", "release"⟩

/-- Fixture for C3: package version 15 (for "1.5"), no UUID. -/
def c3_helper : Helper :=
  ⟨false, true, false, "foo", 15, "", .ok "tagname", []⟩

/-- Fixture for C3: released versions 20 and 10 (for "2.0" and "1.0"). -/
def c3_env : Env :=
  ⟨"/packages/release", true, false, vcs_plain,
    [⟨20, "", "filesystem@pkg-2.0", "r20"⟩, ⟨10, "", "filesystem@pkg-1.0", "r10"⟩]⟩

/-- Fixture for C6: an ordinary hook, then a cancelling hook, then a hook
that must never run. -/
def c6_helper : Helper :=
  ⟨true, true, false, "foo", 15, "", .ok "tagname",
    [⟨"hookA", .ok ()⟩, ⟨"hookB", .error (.releaseHookCancellingError "nope")⟩,
      ⟨"hookC", .ok ()⟩]⟩

/-- Fixture for C6: the pre-release life-cycle event. -/
def c6_event : HookEvent := ⟨"pre-release", "release"⟩

/-- Fixture for C7: current package declares UUID "A". -/
def c7_helper : Helper :=
  ⟨false, true, false, "foo", 15, "A", .ok "tagname", []⟩

/-- Fixture for C7: the released package declares UUID "B". -/
def c7_env : Env :=
  ⟨"/packages/release", true, false, vcs_plain, [⟨20, "B", "u2", "r20"⟩]⟩

/-- Fixture for C8. -/
def c8_helper : Helper :=
  ⟨false, true, false, "foo", 15, "", .ok "tagname", []⟩

/-- Fixture for the C8 counterexample: the changelog has six characters,
one more than `maxlen = 5`. -/
def c8cex_env : Env :=
  ⟨"/packages/release", true, false,
    ⟨"git", .ok (), fun _ => .ok false, fun _ _ => .ok (), .ok "r2",
      fun _ => .ok ['a', 'b', 'c', 'd', 'e', 'f']⟩, []⟩

/-- Fixture for the amended C8: the changelog has fifteen characters,
`maxlen + 10` for `maxlen = 5`. -/
def c8wit_env : Env :=
  ⟨"/packages/release", true, false,
    ⟨"git", .ok (), fun _ => .ok false, fun _ _ => .ok (), .ok "r2",
      fun _ => .ok ['a', 'b', 'c', 'd', 'e', 'f', 'g', 'h', 'i', 'j', 'k',
        'l', 'm', 'n', 'o']⟩, []⟩

/-- Fixture for C9: a resolver that never reaches a solved state. -/
def c9_resolve : List String → List String → ResolvedCtx :=
  fun request _ => ⟨.failed, request⟩

/-- Fixture for C9. -/
def c9_variant : Variant := ⟨0, ["python"], ["cmake"], []⟩

lemma py_str_in_self (s : String) : py_str_in s s = true := by
  unfold py_str_in
  rw [List.any_eq_true]
  refine ⟨0, List.mem_range.mpr (Nat.succ_pos _), ?_⟩
  simp [List.take_length]

/-- C10: for every process_type string, the factory `create_build_process`
never raises its "Unknown build process" `BuildProcessError`: the guard
tests membership of `process_type` in `process_type` itself, which always
holds (a string contains itself), so the lookup proceeds for every input,
recognized or not. -/
theorem claim_c10_factory_never_rejects (α : Type) (get_plugin_class : String → α)
    (process_types : List String) (process_type : String) :
    create_build_process get_plugin_class process_types process_type =
      .ok (get_plugin_class process_type) := by
  unfold create_build_process
  rw [py_str_in_self]
  simp

/-- C2: semantics of the scoped `repo_operation`: with `skip_errors = true`
a `ReleaseVCSError` from the body is swallowed, a warning is printed and
the scope completes with no value; with `skip_errors = false` the same
error propagates unmodified; an error that is not a `ReleaseVCSError`
propagates regardless of `skip_errors`; and in `pre_release` a skipped
`validate_repostate` failure continues exactly as a successful call. -/
theorem claim_c2_repo_operation_policy (α : Type) (e : Exc) :
    (isReleaseVCSError e = true →
        repo_operation true (Except.error e : Except Exc α) =
          .ok (none, some ("THE FOLLOWING ERROR WAS SKIPPED:\n" ++ excStr e)))
    ∧ repo_operation false (Except.error e : Except Exc α) = .error e
    ∧ (isReleaseVCSError e = false →
        ∀ skip_errors : Bool,
          repo_operation skip_errors (Except.error e : Except Exc α) = .error e)
    ∧ (∀ (h : Helper) (env : Env), h.skip_errors = true →
        env.vcs.validate_repostate = .error e → isReleaseVCSError e = true →
        pre_release h env = pre_release h (with_validate_ok env)) := by
  refine ⟨?_, ?_, ?_, ?_⟩
  · intro hv
    simp [repo_operation, hv]
  · simp [repo_operation]
  · intro hv skip_errors
    simp [repo_operation, hv]
  · intro h env hskip hval hv
    have hpc : pre_checks h env = pre_checks h (with_validate_ok env) := by
      unfold pre_checks with_validate_ok
      rw [hval]
      simp [repo_operation, hskip, hv]
    unfold pre_release
    rw [hpc]
    rfl

/-- Witness for C2 at a concrete VCS error. -/
theorem claim_c2_repo_operation_policy_witness :
    repo_operation true (Except.error (Exc.releaseVCSError "dirty repo") : Except Exc Unit) =
      .ok (none, some ("THE FOLLOWING ERROR WAS SKIPPED:\n"
        ++ excStr (Exc.releaseVCSError "dirty repo")))
    ∧ repo_operation false (Except.error (Exc.releaseVCSError "dirty repo") : Except Exc Unit) =
      .error (Exc.releaseVCSError "dirty repo")
    ∧ repo_operation true (Except.error (Exc.buildError "broken") : Except Exc Unit) =
      .error (Exc.buildError "broken") :=
  ⟨(claim_c2_repo_operation_policy Unit (Exc.releaseVCSError "dirty repo")).1 rfl,
   (claim_c2_repo_operation_policy Unit (Exc.releaseVCSError "dirty repo")).2.1,
   (claim_c2_repo_operation_policy Unit (Exc.buildError "broken")).2.2.1 rfl true⟩

/-- C9: `create_build_context` writes the serialized context to the fixed
path `<build_path>/build.rxt` in every case, raises
`BuildContextResolveError` carrying the failed context exactly when the
resolution status is not solved, and returns the context and the
serialization path when it is solved. -/
theorem claim_c9_context_saved_before_status
    (resolve : List String → List String → ResolvedCtx)
    (packages_path nonlocal_packages_path : List String) (variant : Variant)
    (build_type : BuildType) (build_path : String) :
    (create_build_context resolve packages_path nonlocal_packages_path variant
        build_type build_path).1 = [build_path ++ "/build.rxt"]
    ∧ ((create_build_context resolve packages_path nonlocal_packages_path variant
          build_type build_path).2 =
        .error (.buildContextResolveError (resolve (variant_get_requires variant)
          (chosen_packages_path build_type packages_path nonlocal_packages_path)))
        ↔ (resolve (variant_get_requires variant)
            (chosen_packages_path build_type packages_path nonlocal_packages_path)).status
          ≠ ResolverStatus.solved)
    ∧ ((resolve (variant_get_requires variant)
          (chosen_packages_path build_type packages_path nonlocal_packages_path)).status
          = ResolverStatus.solved →
        (create_build_context resolve packages_path nonlocal_packages_path variant
          build_type build_path).2 =
          .ok (resolve (variant_get_requires variant)
            (chosen_packages_path build_type packages_path nonlocal_packages_path),
            build_path ++ "/build.rxt")) := by
  unfold create_build_context
  by_cases hst : (resolve (variant_get_requires variant)
      (chosen_packages_path build_type packages_path nonlocal_packages_path)).status
      = ResolverStatus.solved <;>
    simp [hst]

/-- Witness for C9 at a failing resolver: the context file is written and
the resolve error carries the failed context. -/
theorem claim_c9_context_saved_before_status_witness :
    (create_build_context c9_resolve [] [] c9_variant BuildType.local "/tmp/build").1 =
      ["/tmp/build" ++ "/build.rxt"]
    ∧ (create_build_context c9_resolve [] [] c9_variant BuildType.local "/tmp/build").2 =
      .error (.buildContextResolveError ⟨.failed, ["python", "cmake"]⟩) := by
  refine ⟨(claim_c9_context_saved_before_status c9_resolve [] [] c9_variant
    BuildType.local "/tmp/build").1, ?_⟩
  have h := ((claim_c9_context_saved_before_status c9_resolve [] [] c9_variant
    BuildType.local "/tmp/build").2.1).mpr (by decide)
  exact h.trans (by decide)

/-- C1 names this behavior as "log at debug level and continue", but on the
code the non-cancelling `except RezError` clause formats its debug message
from the local `e`, which is unbound there (its only binding site, the
cancelling clause, raises immediately): the first hook whose callback
raises an ordinary `RezError` makes `run_hooks` raise `UnboundLocalError`
instead of continuing — the failure is not downgraded and does abort the
caller. -/
theorem claim_c1_ordinary_hook_error_eval :
    run_hooks c1_helper c1_event = (["myhook"], .error (.nameError "e"))
    ∧ (run_hooks c1_helper c1_event).2 ≠ .ok () := by
  constructor
  · rfl
  · decide

lemma run_hooks_go_ok_prefix (ev : HookEvent) (pre : List Hook)
    (hpre : ∀ hk ∈ pre, hk.call = .ok ()) (rest : List Hook) :
    run_hooks_go ev none (pre ++ rest) =
      (pre.map Hook.name ++ (run_hooks_go ev none rest).1,
        (run_hooks_go ev none rest).2) := by
  induction pre with
  | nil => simp
  | cons p ps ih =>
    have hp : p.call = .ok () := hpre p (by simp)
    have hps : ∀ hk ∈ ps, hk.call = .ok () := fun hk hm => hpre hk (by simp [hm])
    simp [run_hooks_go, hp, ih hps]

lemma run_hooks_go_cancel (ev : HookEvent) (hc : Hook) (ce : Exc) (rest : List Hook)
    (hcall : hc.call = .error ce) (hcan : isCancelling ce = true) :
    run_hooks_go ev none (hc :: rest) =
      ([hc.name], .error (.releaseError
        (ev.noun ++ " cancelled by " ++ ev.label ++ " hook \'" ++ hc.name
          ++ "\': " ++ excClassName ce ++ ":\n" ++ excStr ce))) := by
  simp [run_hooks_go, hcall, hcan]

/-- C6: a hook callback raising `ReleaseHookCancellingError` makes
`run_hooks` immediately raise a `ReleaseError` naming the event, the hook
and the original error; the hooks after it are never invoked (the
invocation trace stops at the cancelling hook), and the helper's
`skip_errors` setting is arbitrary — the veto does not consult it. -/
theorem claim_c6_cancelling_hook_veto (ev : HookEvent) (h : Helper)
    (pre rest : List Hook) (hc : Hook) (ce : Exc)
    (hhooks : h.hooks = pre ++ hc :: rest)
    (hpre : ∀ hk ∈ pre, hk.call = .ok ())
    (hcall : hc.call = .error ce) (hcan : isCancelling ce = true) :
    run_hooks h ev =
      (pre.map Hook.name ++ [hc.name],
        .error (.releaseError
          (ev.noun ++ " cancelled by " ++ ev.label ++ " hook \'" ++ hc.name
            ++ "\': " ++ excClassName ce ++ ":\n" ++ excStr ce))) := by
  unfold run_hooks
  rw [hhooks, run_hooks_go_ok_prefix ev pre hpre (hc :: rest),
    run_hooks_go_cancel ev hc ce rest hcall hcan]

/-- Witness for C6: the cancelling second hook aborts with the naming
message and the third hook never runs. -/
theorem claim_c6_cancelling_hook_veto_witness :
    run_hooks c6_helper c6_event =
      (["hookA", "hookB"],
        .error (.releaseError ("release cancelled by pre-release hook \'hookB\': "
          ++ "ReleaseHookCancellingError:\nnope"))) := by
  have h := claim_c6_cancelling_hook_veto c6_event c6_helper
    [⟨"hookA", .ok ()⟩] [⟨"hookC", .ok ()⟩]
    ⟨"hookB", .error (.releaseHookCancellingError "nope")⟩
    (.releaseHookCancellingError "nope") rfl (by decide) rfl rfl
  exact h.trans (by decide)

lemma mem_sortByVersionDesc {p : RelPackage} {l : List RelPackage} :
    p ∈ sortByVersionDesc l ↔ p ∈ l :=
  (List.perm_insertionSort versionGe l).mem_iff

lemma sortByVersionDesc_eq_nil {l : List RelPackage}
    (hs : sortByVersionDesc l = []) : l = [] := by
  have h := List.perm_insertionSort versionGe l
  rw [sortByVersionDesc] at hs
  rw [hs] at h
  exact h.nil_eq.symm

lemma sortByVersionDesc_head_max {l : List RelPackage} {p : RelPackage}
    {rest : List RelPackage} (hs : sortByVersionDesc l = p :: rest) :
    ∀ q ∈ l, q.version ≤ p.version := by
  intro q hq
  have hq' : q ∈ p :: rest := by
    rw [← hs, mem_sortByVersionDesc]
    exact hq
  rcases List.mem_cons.mp hq' with rfl | hq''
  · exact le_refl _
  · have hsorted := List.sorted_insertionSort versionGe l
    rw [sortByVersionDesc] at hs
    rw [hs, List.sorted_cons] at hsorted
    exact hsorted.1 q hq''

lemma ensure_latest_sorted_ok_iff (v : Nat) (l : List RelPackage) :
    ensure_latest_check v (sortByVersionDesc l) = .ok () ↔
      ∀ p ∈ l, p.version ≤ v := by
  cases hs : sortByVersionDesc l with
  | nil =>
    have hl : l = [] := sortByVersionDesc_eq_nil hs
    subst hl
    simp [ensure_latest_check]
  | cons p rest =>
    constructor
    · intro hok q hq
      have hple : q.version ≤ p.version := sortByVersionDesc_head_max hs q hq
      by_cases hlt : v < p.version
      · rw [ensure_latest_check, if_pos hlt] at hok
        exact absurd hok (by simp)
      · exact le_trans hple (not_lt.mp hlt)
    · intro hall
      have hp : p ∈ l := mem_sortByVersionDesc.mp (by rw [hs]; exact List.mem_cons_self p rest)
      rw [ensure_latest_check, if_neg (not_lt.mpr (hall p hp))]

lemma ensure_latest_sorted_error (v : Nat) (l : List RelPackage)
    (hex : ∃ p ∈ l, v < p.version) :
    ∃ p ∈ l, v < p.version ∧
      ensure_latest_check v (sortByVersionDesc l) =
        .error (.releaseError
          ("Cannot release - a newer package version already exists ("
            ++ p.uri ++ ")")) := by
  obtain ⟨p0, hp0, hv0⟩ := hex
  cases hs : sortByVersionDesc l with
  | nil =>
    have hl : l = [] := sortByVersionDesc_eq_nil hs
    subst hl
    exact absurd hp0 (List.not_mem_nil p0)
  | cons p rest =>
    have hple : p0.version ≤ p.version := sortByVersionDesc_head_max hs p0 hp0
    have hpv : v < p.version := lt_of_lt_of_le hv0 hple
    have hpmem : p ∈ l :=
      mem_sortByVersionDesc.mp (by rw [hs]; exact List.mem_cons_self p rest)
    refine ⟨p, hpmem, hpv, ?_⟩
    rw [ensure_latest_check, if_pos hpv]

lemma pre_release_ok_parts (h : Helper) (env : Env)
    (hok : pre_release h env = .ok ()) :
    pre_checks h env = .ok () ∧
      uuid_check h.package_uuid (sortByVersionDesc env.released) = .ok () := by
  unfold pre_release at hok
  cases hpc : pre_checks h env with
  | error e =>
    rw [hpc] at hok
    exact absurd hok (by simp)
  | ok a =>
    cases a
    rw [hpc] at hok
    cases huc : uuid_check h.package_uuid (sortByVersionDesc env.released) with
    | error e =>
      rw [huc] at hok
      exact absurd hok (by simp)
    | ok b =>
      cases b
      exact ⟨rfl, rfl⟩

lemma pre_release_decomp (h : Helper) (env : Env)
    (hpc : pre_checks h env = .ok ())
    (huc : uuid_check h.package_uuid (sortByVersionDesc env.released) = .ok ()) :
    pre_release h env =
      if h.ensure_latest then
        ensure_latest_check h.package_version (sortByVersionDesc env.released)
      else .ok () := by
  unfold pre_release
  simp only [hpc, huc]

/-- C3: when the guards before the version check pass (stated as:
`pre_release` with `ensure_latest` cleared succeeds), releasing with
`ensure_latest` set succeeds exactly when no already-released version is
strictly greater than the version being released — released versions less
than or equal to it never block — and when some released version is
greater, `pre_release` raises a `ReleaseError` citing that package's
location.  With `ensure_latest` cleared the check is not performed at all
(the hypothesis exhibits success on the same environment). -/
theorem claim_c3_ensure_latest_guard (h : Helper) (env : Env)
    (hfalse : pre_release (with_ensure_latest h false) env = .ok ()) :
    (pre_release (with_ensure_latest h true) env = .ok () ↔
        ∀ p ∈ env.released, p.version ≤ h.package_version)
    ∧ ((∃ p ∈ env.released, h.package_version < p.version) →
        ∃ p ∈ env.released, h.package_version < p.version ∧
          pre_release (with_ensure_latest h true) env =
            .error (.releaseError
              ("Cannot release - a newer package version already exists ("
                ++ p.uri ++ ")"))) := by
  have hparts := pre_release_ok_parts (with_ensure_latest h false) env hfalse
  have h1 : pre_checks (with_ensure_latest h true) env = .ok () := hparts.1
  have h2 : uuid_check (with_ensure_latest h true).package_uuid
      (sortByVersionDesc env.released) = .ok () := hparts.2
  have htrue : pre_release (with_ensure_latest h true) env =
      ensure_latest_check h.package_version (sortByVersionDesc env.released) := by
    rw [pre_release_decomp (with_ensure_latest h true) env h1 h2]
    rfl
  constructor
  · rw [htrue]
    exact ensure_latest_sorted_ok_iff h.package_version env.released
  · intro hex
    obtain ⟨p, hp, hv, he⟩ :=
      ensure_latest_sorted_error h.package_version env.released hex
    exact ⟨p, hp, hv, htrue.trans he⟩

/-- Witness for C3: released versions 20 and 10, releasing version 15 —
with `ensure_latest` the guard must reject, without it the release check
passes (the discharged hypothesis), and the rejection cites the version-20
package. -/
theorem claim_c3_ensure_latest_guard_witness :
    (pre_release (with_ensure_latest c3_helper true) c3_env = .ok () ↔
        ∀ p ∈ c3_env.released, p.version ≤ c3_helper.package_version)
    ∧ ((∃ p ∈ c3_env.released, c3_helper.package_version < p.version) →
        ∃ p ∈ c3_env.released, c3_helper.package_version < p.version ∧
          pre_release (with_ensure_latest c3_helper true) c3_env =
            .error (.releaseError
              ("Cannot release - a newer package version already exists ("
                ++ p.uri ++ ")"))) :=
  claim_c3_ensure_latest_guard c3_helper c3_env (by decide)

/-- C7: when the guards before the released-package listing pass, a
declared current UUID differing from the declared UUID of the most
recently released package makes `pre_release` fail with the UUID-mismatch
`ReleaseError`; with either UUID empty, or no released packages at all,
the check passes and execution continues to the version check. -/
theorem claim_c7_uuid_guard (h : Helper) (env : Env)
    (hchecks : pre_checks h env = .ok ()) :
    (∀ latest rest, sortByVersionDesc env.released = latest :: rest →
        h.package_uuid ≠ "" → latest.uuid ≠ "" → latest.uuid ≠ h.package_uuid →
        pre_release h env = .error (.releaseError
          "Cannot release - the packages are not the same (UUID mismatch)"))
    ∧ ((h.package_uuid = "" ∨ env.released = [] ∨
          ∃ latest rest, sortByVersionDesc env.released = latest :: rest ∧
            (latest.uuid = "" ∨ latest.uuid = h.package_uuid)) →
        pre_release h env =
          if h.ensure_latest then
            ensure_latest_check h.package_version (sortByVersionDesc env.released)
          else .ok ()) := by
  constructor
  · intro latest rest hs hu hlu hne
    have huc_err : uuid_check h.package_uuid (sortByVersionDesc env.released) =
        .error (.releaseError
          "Cannot release - the packages are not the same (UUID mismatch)") := by
      rw [hs]
      simp only [uuid_check]
      rw [if_pos ⟨hu, hlu, hne⟩]
    unfold pre_release
    simp only [hchecks, huc_err]
  · intro hcase
    have huc : uuid_check h.package_uuid (sortByVersionDesc env.released) = .ok () := by
      rcases hcase with hu | hrel | ⟨latest, rest, hs, hor⟩
      · cases hsv : sortByVersionDesc env.released with
        | nil => rfl
        | cons latest rest =>
          simp only [uuid_check]
          rw [if_neg]
          intro hcon
          exact hcon.1 hu
      · rw [hrel]
        rfl
      · rw [hs]
        simp only [uuid_check]
        rw [if_neg]
        intro hcon
        rcases hor with h1 | h1
        · exact hcon.2.1 h1
        · exact hcon.2.2 h1
    exact pre_release_decomp h env hchecks huc

/-- Witness for C7: current UUID "A", most recent released UUID "B" — the
release is rejected with the UUID-mismatch error. -/
theorem claim_c7_uuid_guard_witness :
    pre_release c7_helper c7_env =
      .error (.releaseError
        "Cannot release - the packages are not the same (UUID mismatch)") :=
  (claim_c7_uuid_guard c7_helper c7_env (by decide)).1
    ⟨20, "B", "u2", "r20"⟩ [] (by decide) (by decide) (by decide) (by decide)

lemma visit_loop_no_filter {α : Type} (n : Nat) (f : Nat → α) :
    ∀ l : List Nat, visit_loop n f [] l = (l, [], l.length, l.map f) := by
  intro l
  induction l with
  | nil => rfl
  | cons i rest ih =>
    simp [visit_loop, ih]

lemma visit_loop_with_filter {α : Type} (n : Nat) (f : Nat → α) (vs : List Nat)
    (hne : vs ≠ []) :
    ∀ l : List Nat, visit_loop n f vs l =
      (l.filter (fun i => decide (i ∈ vs)),
       (l.filter (fun i => !decide (i ∈ vs))).map
         (fun i => "Skipping " ++ n_of_m n i ++ "..."),
       (l.filter (fun i => decide (i ∈ vs))).length,
       (l.filter (fun i => decide (i ∈ vs))).map f) := by
  intro l
  induction l with
  | nil => rfl
  | cons i rest ih =>
    by_cases hmem : i ∈ vs
    · simp [visit_loop, hne, hmem, ih, List.filter_cons]
    · simp [visit_loop, hne, hmem, ih, List.filter_cons]

/-- C4: a non-empty variants filter holding an index the package does not
have makes `visit_variants` fail with a `BuildError` naming the invalid
indices, for every per-variant function; the invocation trace is empty —
zero variants are visited and no skip headers are printed. -/
theorem claim_c4_invalid_filter_rejected (α : Type) (num_variants : Nat)
    (variants : List Nat) (hne : variants ≠ []) (i : Nat) (hi : i ∈ variants)
    (hbad : num_variants ≤ i) :
    ∀ func : Nat → α,
      visit_variants num_variants func variants =
        ([], [], .error (.buildError
          ("The package does not contain the variants: "
            ++ String.intercalate ", "
              ((invalid_variants_of num_variants variants).map toString)))) := by
  intro func
  have himem : i ∈ invalid_variants_of num_variants variants := by
    unfold invalid_variants_of
    rw [(List.perm_insertionSort _ _).mem_iff, List.mem_dedup, List.mem_filter]
    refine ⟨hi, ?_⟩
    simp [List.mem_range]
    omega
  have hinv : invalid_variants_of num_variants variants ≠ [] := by
    intro hnil
    rw [hnil] at himem
    exact List.not_mem_nil i himem
  unfold visit_variants
  rw [if_pos ⟨hne, hinv⟩]

/-- Witness for C4: a two-variant package with filter `[5]`. -/
theorem claim_c4_invalid_filter_rejected_witness :
    visit_variants 2 (fun i => i) [5] =
      ([], [], .error (.buildError
        "The package does not contain the variants: 5")) :=
  (claim_c4_invalid_filter_rejected Nat 2 [5] (by decide) 5 (by decide) (by decide)
    (fun i => i)).trans (by decide)

/-- C5: with an empty (or absent) filter `visit_variants` invokes the
function on every variant exactly once in ascending index order, collects
the results in that order and reports a visited count equal to the number
of variants; with a non-empty valid filter the variants outside the filter
are skipped with a progress header and the rest are visited in order. -/
theorem claim_c5_walker_order (α : Type) (num_variants : Nat) (func : Nat → α) :
    visit_variants num_variants func [] =
      (List.range num_variants, [],
        .ok (num_variants, (List.range num_variants).map func))
    ∧ List.Sorted (· < ·) (List.range num_variants)
    ∧ ∀ variants : List Nat, variants ≠ [] →
        (∀ i ∈ variants, i < num_variants) →
        visit_variants num_variants func variants =
          ((List.range num_variants).filter (fun i => decide (i ∈ variants)),
           ((List.range num_variants).filter (fun i => !decide (i ∈ variants))).map
             (fun i => "Skipping " ++ n_of_m num_variants i ++ "..."),
           .ok (((List.range num_variants).filter
               (fun i => decide (i ∈ variants))).length,
             ((List.range num_variants).filter
               (fun i => decide (i ∈ variants))).map func)) := by
  refine ⟨?_, ?_, ?_⟩
  · unfold visit_variants
    rw [if_neg (by simp)]
    rw [visit_loop_no_filter]
    simp
  · exact List.pairwise_lt_range num_variants
  · intro vs hne hvalid
    have hinv : invalid_variants_of num_variants vs = [] := by
      unfold invalid_variants_of
      have hfil : vs.filter (fun x => decide (x ∉ List.range num_variants)) = [] := by
        rw [List.filter_eq_nil_iff]
        intro a ha
        simp [List.mem_range]
        exact hvalid a ha
      rw [hfil]
      rfl
    unfold visit_variants
    rw [if_neg (by simp [hinv])]
    rw [visit_loop_with_filter num_variants func vs hne]

/-- Witness for C5: a two-variant package with filter `[0]` — variant 0 is
visited, variant 1 is skipped with the "2/2" progress header. -/
theorem claim_c5_walker_order_witness :
    visit_variants 2 (fun i => 10 * i) [0] =
      ([0], ["Skipping 2/2..."], .ok (1, [0])) :=
  ((claim_c5_walker_order Nat 2 (fun i => 10 * i)).2.2 [0] (by decide)
    (by decide)).trans (by decide)

/-- C8 as stated is false on the code: the truncation guard is
`len(changelog) > maxlen + 3`, not `> maxlen`, so a changelog one
character longer than `maxlen` is returned unmodified, not truncated.
Here `maxlen = 5` and the changelog has six characters. -/
theorem claim_c8_counterexample_untruncated :
    get_release_data c8_helper c8cex_env 5 =
      .ok ⟨"git", some "r2", some ['a', 'b', 'c', 'd', 'e', 'f'], none, none⟩
    ∧ 5 < (['a', 'b', 'c', 'd', 'e', 'f'] : List Char).length
    ∧ some (['a', 'b', 'c', 'd', 'e', 'f'] : List Char) ≠
        some ((['a', 'b', 'c', 'd', 'e', 'f'] : List Char).take 5 ++ ellipsis) := by
  refine ⟨rfl, by decide, by decide⟩

/-- C8 amended: with `max_package_changelog_chars = maxlen > 0` and the
VCS calls succeeding, a changelog longer than `maxlen + 3` characters is
truncated to exactly its first `maxlen` characters followed by the
3-character ellipsis marker, and a changelog of length at most
`maxlen + 3` is returned unmodified. -/
theorem claim_c8_changelog_truncation (h : Helper) (env : Env) (maxlen : Nat)
    (rev : String) (cl : List Char) (hm : 0 < maxlen)
    (hrev : env.vcs.get_current_revision = .ok rev)
    (hcl : ∀ pr, env.vcs.get_changelog pr = .ok cl) :
    ∃ r, get_release_data h env maxlen = .ok r
      ∧ ellipsis.length = 3
      ∧ (maxlen + 3 < cl.length →
          r.changelog = some (cl.take maxlen ++ ellipsis)
            ∧ (cl.take maxlen).length = maxlen)
      ∧ (cl.length ≤ maxlen + 3 → r.changelog = some cl) := by
  by_cases hlen : maxlen + 3 < cl.length
  · have hne : cl ≠ [] := by
      intro h0
      rw [h0] at hlen
      simp at hlen
    refine ⟨⟨env.vcs.vcs_name, some rev, some (cl.take maxlen ++ ellipsis),
        (get_previous_release h env).map (fun p => p.version),
        (get_previous_release h env).map (fun p => p.revision)⟩,
      ?_, rfl, fun _ => ⟨rfl, ?_⟩, fun hle => absurd hlen (not_lt.mpr hle)⟩
    · unfold get_release_data
      simp only [hrev, hcl, repo_operation]
      rw [if_pos ⟨Nat.pos_iff_ne_zero.mp hm, hne, hlen⟩]
    · rw [List.length_take]
      exact Nat.min_eq_left (Nat.le_of_lt (by omega))
  · refine ⟨⟨env.vcs.vcs_name, some rev, some cl,
        (get_previous_release h env).map (fun p => p.version),
        (get_previous_release h env).map (fun p => p.revision)⟩,
      ?_, rfl, fun hgt => absurd hgt hlen, fun _ => rfl⟩
    unfold get_release_data
    simp only [hrev, hcl, repo_operation]
    rw [if_neg (fun hcon => hlen hcon.2.2)]

/-- Witness for the amended C8: a changelog of `maxlen + 10` characters
with `maxlen = 5` is truncated to its first five characters plus the
ellipsis marker. -/
theorem claim_c8_changelog_truncation_witness :
    ∃ r, get_release_data c8_helper c8wit_env 5 = .ok r
      ∧ ellipsis.length = 3
      ∧ (5 + 3 < (['a', 'b', 'c', 'd', 'e', 'f', 'g', 'h', 'i', 'j', 'k', 'l',
          'm', 'n', 'o'] : List Char).length →
          r.changelog = some ((['a', 'b', 'c', 'd', 'e', 'f', 'g', 'h', 'i', 'j',
            'k', 'l', 'm', 'n', 'o'] : List Char).take 5 ++ ellipsis)
            ∧ ((['a', 'b', 'c', 'd', 'e', 'f', 'g', 'h', 'i', 'j', 'k', 'l', 'm',
              'n', 'o'] : List Char).take 5).length = 5)
      ∧ ((['a', 'b', 'c', 'd', 'e', 'f', 'g', 'h', 'i', 'j', 'k', 'l', 'm', 'n',
          'o'] : List Char).length ≤ 5 + 3 →
          r.changelog = some ['a', 'b', 'c', 'd', 'e', 'f', 'g', 'h', 'i', 'j',
            'k', 'l', 'm', 'n', 'o']) :=
  claim_c8_changelog_truncation c8_helper c8wit_env 5 "r2"
    ['a', 'b', 'c', 'd', 'e', 'f', 'g', 'h', 'i', 'j', 'k', 'l', 'm', 'n', 'o']
    (by decide) rfl (fun _ => rfl)

end RezBuild
